import Mathlib

/-!
Shallow embedding of src/functions/scripts/extractTranscriptsPython.py.

The file models the two functions with decision logic: fetch_webshare_proxies
(proxy-list retrieval that degrades every failure to an empty list) and
extract_transcript (the bounded retry loop with error classification and
backoff). External effects are supplied as explicit oracle inputs: the HTTP
response to the proxy-list request, the outcome of the transcript fetch on
each attempt, and the random proxy choice. Sleeps and the transcript-fetch
calls are recorded in an explicit event trace; stderr logging of the proxy
fetch is returned as a list of lines.
-/

/-- Does the character list s begin with the character list p? Helper for the
Python substring operator. -/
def charsStartWith : List Char → List Char → Bool
  | [], _ => true
  | _ :: _, [] => false
  | p :: ps, c :: cs => p == c && charsStartWith ps cs

/-- Does pat occur as a contiguous substring of the character list? -/
def charsContain (pat : List Char) : List Char → Bool
  | [] => List.isEmpty pat
  | c :: cs => charsStartWith pat (c :: cs) || charsContain pat cs

/-- Python substring test: pat in s. -/
def occursIn (pat s : String) : Bool :=
  charsContain pat.toList s.toList

/-- Python str.lower, applied character by character. -/
def strLower (s : String) : String :=
  String.mk (List.map Char.toLower s.toList)

/-- A proxy credential as assembled by fetch_webshare_proxies (the dict with
keys proxy_address, port, username, password). -/
structure Proxy where
  proxy_address : String
  port : Nat
  username : String
  password : String
  deriving DecidableEq

/-- One JSON object of the results list of the Webshare response. A field is
none when the key is missing; the dict access in the source then raises
KeyError, which the surrounding except handler turns into an empty list. -/
structure ProxyEntry where
  proxy_address : Option String
  port : Option Nat
  username : Option String
  password : Option String
  deriving DecidableEq

/-- The body of the HTTP response to the proxy-list request: either
response.json() raises (malformed payload) or it yields a dict whose
optional results key holds a list of entries. -/
inductive JsonBody where
  | parseError (msg : String)
  | parsed (results : Option (List ProxyEntry))
  deriving DecidableEq

/-- Outcome of requests.get on the Webshare API: a raised network exception
or a response with a status code and a body. -/
inductive HttpOutcome where
  | exc (msg : String)
  | resp (status : Nat) (body : JsonBody)
  deriving DecidableEq

/-- The four dict accesses for one entry of the results list; none when any
key is missing (the KeyError case). -/
def entryToProxy (e : ProxyEntry) : Option Proxy :=
  match e.proxy_address, e.port, e.username, e.password with
  | some a, some p, some u, some w => some { proxy_address := a, port := p, username := u, password := w }
  | _, _, _, _ => none

/-- The for-loop over the results list: none models the loop raising KeyError
part-way (caught by the except handler), some gives the accumulated list. -/
def collectProxies : List ProxyEntry → Option (List Proxy)
  | [] => some []
  | e :: rest =>
    match entryToProxy e with
    | none => none
    | some p => Option.map (fun ps => p :: ps) (collectProxies rest)

/-- fetch_webshare_proxies: returns the stderr log lines and the proxy list.
Every failure path of the source (missing key, raised network exception,
non-200 status, malformed JSON, missing entry key) is caught and yields an
empty list; the function is total, so no exception propagates. -/
def fetch_webshare_proxies (key : String) (http : HttpOutcome) : List String × List Proxy :=
  if key = "" then
    (["Error: No Webshare API key provided"], [])
  else
    match http with
    | HttpOutcome.exc msg =>
      (["Fetching proxies from Webshare API", "Failed to fetch Webshare proxies: " ++ msg], [])
    | HttpOutcome.resp status body =>
      if status ≠ 200 then
        (["Fetching proxies from Webshare API", "Webshare API error: " ++ toString status], [])
      else
        match body with
        | JsonBody.parseError msg =>
          (["Fetching proxies from Webshare API", "Failed to fetch Webshare proxies: " ++ msg], [])
        | JsonBody.parsed results =>
          match collectProxies (Option.getD results []) with
          | none =>
            (["Fetching proxies from Webshare API", "Failed to fetch Webshare proxies: KeyError"], [])
          | some ps =>
            (["Fetching proxies from Webshare API",
              "Fetched " ++ toString (List.length ps) ++ " proxies from Webshare"], ps)

/-- Classifies an oracle input to fetch_webshare_proxies as one of the failure
outcomes of the claim: missing key, network exception, non-200 response, or
malformed payload (unparsable body or an entry with a missing key). -/
def isFailureOutcome (key : String) (http : HttpOutcome) : Bool :=
  if key = "" then true
  else
    match http with
    | HttpOutcome.exc _ => true
    | HttpOutcome.resp status body =>
      if status ≠ 200 then true
      else
        match body with
        | JsonBody.parseError _ => true
        | JsonBody.parsed results =>
          List.any (Option.getD results []) (fun e => Option.isNone (entryToProxy e))

/-- One snippet of the fetched transcript: text, start seconds, duration
seconds. Seconds are modelled as rationals; no claim computes with them. -/
structure Snippet where
  text : String
  start : Rat
  duration : Rat
  deriving DecidableEq

/-- One output segment dict with keys text, start, duration. -/
structure Segment where
  text : String
  start : Rat
  duration : Rat
  deriving DecidableEq

/-- The dict built from one snippet inside the success branch. -/
def segmentOfSnippet (s : Snippet) : Segment :=
  { text := s.text, start := s.start, duration := s.duration }

/-- The join of the snippet texts with single-space separators. -/
def joinTexts (snips : List Snippet) : String :=
  String.intercalate (" ") (List.map Snippet.text snips)

/-- Outcome of ytt_api.fetch on one attempt: a fetched snippet sequence, or a
raised exception carrying its message string. -/
inductive FetchOutcome where
  | ok (snips : List Snippet)
  | err (msg : String)
  deriving DecidableEq

/-- Oracle inputs of one run of extract_transcript: the Webshare API key and
HTTP outcome, the transcript-fetch outcome per attempt index, and the random
proxy index per attempt index. -/
structure Env where
  apiKey : String
  http : HttpOutcome
  fetch : Nat → FetchOutcome
  pick : Nat → Nat

/-- The first classification test of the except handler, exactly as in the
source: "IP" in error_msg (case-sensitive) or "blocked" in error_msg.lower()
or "429" in error_msg. -/
def rateLimitCond (msg : String) : Bool :=
  occursIn ("IP") msg || occursIn ("blocked") (strLower msg) || occursIn ("429") msg

/-- The second classification test of the except handler: "transcript" in
error_msg.lower() or "available" in error_msg.lower(). -/
def noTransCond (msg : String) : Bool :=
  occursIn ("transcript") (strLower msg) || occursIn ("available") (strLower msg)

/-- random.choice on the proxy list, driven by the oracle index; none when
the list is empty (the source then keeps proxy_config = None). -/
def chooseProxy (pickIndex : Nat) (available_proxies : List Proxy) : Option Proxy :=
  if List.isEmpty available_proxies then none
  else List.get? available_proxies (pickIndex % List.length available_proxies)

/-- The WebshareProxyConfig object built from a proxy credential. -/
structure WebshareProxyConfig where
  proxy_username : String
  proxy_password : String
  deriving DecidableEq

/-- create_proxy_config: None for falsy input, else the config wrapping the
username and password (the construction is pure field wrapping, so the
defensive except branch of the source never fires in the model). -/
def create_proxy_config : Option Proxy → Option WebshareProxyConfig
  | none => none
  | some p => some { proxy_username := p.username, proxy_password := p.password }

/-- The proxy_used string of the success dict: host:port when a proxy config
and proxy data are present, otherwise the string none. -/
def proxyUsedStr (proxy_data : Option Proxy) : String :=
  match create_proxy_config proxy_data, proxy_data with
  | some _, some p => p.proxy_address ++ ":" ++ toString p.port
  | _, _ => "none"

/-- The result dict of extract_transcript. A field is none exactly when the
corresponding key is absent from the returned dict. -/
structure ExtractionResult where
  success : Bool
  segments : Option (List Segment)
  fullText : Option String
  segmentCount : Option Nat
  attempt : Option Nat
  proxy_used : Option String
  error : Option String
  errorType : Option String
  deriving DecidableEq

/-- The success dict of the source (lines 151 to 158): segments converted in
order, fullText the space-join, segmentCount the length of the fetched
sequence, attempt the 1-based attempt number, proxy_used as printed. -/
def successResult (attempt : Nat) (proxy_data : Option Proxy) (snips : List Snippet) : ExtractionResult :=
  { success := true
    segments := some (List.map segmentOfSnippet snips)
    fullText := some (joinTexts snips)
    segmentCount := some (List.length snips)
    attempt := some (attempt + 1)
    proxy_used := some (proxyUsedStr proxy_data)
    error := none
    errorType := none }

/-- A failure dict of the source: error message and errorType present, the
segment fields present but empty, attempt and proxy_used keys absent. -/
def mkFailure (msg et : String) : ExtractionResult :=
  { success := false
    segments := some []
    fullText := some ""
    segmentCount := some 0
    attempt := none
    proxy_used := none
    error := some msg
    errorType := some et }

/-- Observable events of one run: the jitter sleep before a retry, one
transcript-fetch call with the proxy it used, the exponential backoff sleep
in seconds, and the short random sleep after an unclassified error. -/
inductive Event where
  | jitter
  | fetchAttempt (attempt : Nat) (proxy_data : Option Proxy)
  | backoff (seconds : Nat)
  | generalWait
  deriving DecidableEq

/-- Number of transcript-fetch calls recorded in a trace. -/
def countAttempts : List Event → Nat
  | [] => 0
  | Event.fetchAttempt _ _ :: rest => countAttempts rest + 1
  | _ :: rest => countAttempts rest

/-- The backoff sleep durations of a trace, in order. -/
def backoffWaits : List Event → List Nat
  | [] => []
  | Event.backoff s :: rest => s :: backoffWaits rest
  | _ :: rest => backoffWaits rest

/-- The attempt loop of extract_transcript (for attempt in range(retry_count)),
run on the list of remaining attempt indices, threading the event trace. Each
branch mirrors the corresponding branch of the source: success returns the
success dict at once; a rate-limit classified error sleeps 2 ** attempt * 30
seconds and continues while attempts remain, else returns IP_BLOCKED; a
no-transcript classified error returns NO_TRANSCRIPT at once; any other error
sleeps a short random time and continues while attempts remain, else returns
UNKNOWN. The empty list is the loop running to completion, the defensive
MAX_RETRIES_EXCEEDED fallback. -/
def extractLoop (env : Env) (available_proxies : List Proxy) (retry_count : Nat) :
    List Nat → List Event → ExtractionResult × List Event
  | [], trace =>
    (mkFailure ("All " ++ toString retry_count ++ " attempts failed") ("MAX_RETRIES_EXCEEDED"), trace)
  | attempt :: rest, trace =>
    let trace1 := trace ++ (if 0 < attempt then [Event.jitter] else [])
    let proxy_data := chooseProxy (env.pick attempt) available_proxies
    let trace2 := trace1 ++ [Event.fetchAttempt attempt proxy_data]
    match env.fetch attempt with
    | FetchOutcome.ok snips =>
      (successResult attempt proxy_data snips, trace2)
    | FetchOutcome.err msg =>
      if rateLimitCond msg then
        if attempt < retry_count - 1 then
          extractLoop env available_proxies retry_count rest
            (trace2 ++ [Event.backoff (2 ^ attempt * 30)])
        else
          (mkFailure ("IP blocked/rate limited after " ++ toString retry_count ++
            " attempts: " ++ msg) ("IP_BLOCKED"), trace2)
      else if noTransCond msg then
        (mkFailure ("No transcript available: " ++ msg) ("NO_TRANSCRIPT"), trace2)
      else
        if attempt < retry_count - 1 then
          extractLoop env available_proxies retry_count rest (trace2 ++ [Event.generalWait])
        else
          (mkFailure ("Failed after " ++ toString retry_count ++ " attempts: " ++ msg) ("UNKNOWN"), trace2)

/-- extract_transcript: fetches the proxy list, then runs the attempt loop
over range(retry_count) starting with an empty trace. -/
def extract_transcript (env : Env) (retry_count : Nat) : ExtractionResult × List Event :=
  let available_proxies := (fetch_webshare_proxies env.apiKey env.http).2
  extractLoop env available_proxies retry_count (List.range retry_count) []

/-- Either outcome shape extract_transcript can produce: the success dict of
some attempt whose fetch succeeded, or one of the four failure dicts. -/
def ResultShape (env : Env) (available_proxies : List Proxy) (r : ExtractionResult) : Prop :=
  (∃ a snips, env.fetch a = FetchOutcome.ok snips ∧
    r = successResult a (chooseProxy (env.pick a) available_proxies) snips) ∨
  (∃ msg et, (et = "IP_BLOCKED" ∨ et = "NO_TRANSCRIPT" ∨ et = "UNKNOWN" ∨
    et = "MAX_RETRIES_EXCEEDED") ∧ r = mkFailure msg et)

/-- A fixed network-exception outcome used by the concrete runs below. -/
def httpDown : HttpOutcome :=
  HttpOutcome.exc ("connection refused")

def snipHello : Snippet := { text := "Hello", start := 0, duration := 6 / 5 }

def snipWorld : Snippet := { text := "world", start := 6 / 5, duration := 4 / 5 }

/-- A run whose transcript fetch always succeeds with two snippets. -/
def envOk : Env :=
  { apiKey := "", http := httpDown,
    fetch := fun _ => FetchOutcome.ok [snipHello, snipWorld], pick := fun _ => 0 }

/-- A run whose transcript fetch always raises a 429 message. -/
def envRate : Env :=
  { apiKey := "", http := httpDown,
    fetch := fun _ => FetchOutcome.err ("429 Too Many Requests"), pick := fun _ => 0 }

/-- A run whose transcript fetch raises a message containing both the literal
IP and the word transcript. -/
def envIpTrans : Env :=
  { apiKey := "", http := httpDown,
    fetch := fun _ => FetchOutcome.err ("IP transcript failure"), pick := fun _ => 0 }

/-- A run whose transcript fetch raises a message containing ip only in lower
case. -/
def envLowerIp : Env :=
  { apiKey := "", http := httpDown,
    fetch := fun _ => FetchOutcome.err ("client ip rejected"), pick := fun _ => 0 }

/-- A run whose transcript fetch raises a plain no-transcript message. -/
def envNoTrans : Env :=
  { apiKey := "", http := httpDown,
    fetch := fun _ => FetchOutcome.err ("no transcript found"), pick := fun _ => 0 }

/-- A run whose transcript fetch raises an unclassifiable message. -/
def envBoom : Env :=
  { apiKey := "", http := httpDown,
    fetch := fun _ => FetchOutcome.err ("boom"), pick := fun _ => 0 }

/-! Helper lemmas. -/

theorem charsStartWith_iff (p : List Char) : ∀ s : List Char,
    charsStartWith p s = true ↔ ∃ t, s = p ++ t := by
  induction p with
  | nil =>
    intro s
    constructor
    · intro _; exact ⟨s, rfl⟩
    · intro _; rfl
  | cons c cs ih =>
    intro s
    cases s with
    | nil =>
      simp [charsStartWith]
    | cons d ds =>
      simp only [charsStartWith, Bool.and_eq_true, beq_iff_eq, ih]
      constructor
      · rintro ⟨rfl, t, rfl⟩
        exact ⟨t, rfl⟩
      · rintro ⟨t, h⟩
        rw [List.cons_append] at h
        injection h with h1 h2
        exact ⟨h1.symm, t, h2⟩

theorem charsContain_iff (p : List Char) : ∀ s : List Char,
    charsContain p s = true ↔ ∃ l t, s = l ++ p ++ t := by
  intro s
  induction s with
  | nil =>
    simp only [charsContain, List.isEmpty_iff]
    constructor
    · rintro rfl; exact ⟨[], [], rfl⟩
    · rintro ⟨l, t, h⟩
      rcases List.append_eq_nil.1 (List.append_eq_nil.1 h.symm).1 with ⟨_, h2⟩
      exact h2
  | cons c cs ih =>
    simp only [charsContain, Bool.or_eq_true, charsStartWith_iff, ih]
    constructor
    · rintro (⟨t, h⟩ | ⟨l, t, h⟩)
      · exact ⟨[], t, by simpa using h⟩
      · exact ⟨c :: l, t, by simp [h]⟩
    · rintro ⟨l, t, h⟩
      cases l with
      | nil =>
        left
        simp only [List.nil_append] at h
        exact ⟨t, h⟩
      | cons x xs =>
        right
        rw [List.cons_append, List.cons_append] at h
        injection h with h1 h2
        exact ⟨xs, t, h2⟩

/-- occursIn is genuine substring containment, as the Python in operator. -/
theorem occursIn_iff (pat s : String) :
    occursIn pat s = true ↔ ∃ l t, s.toList = l ++ pat.toList ++ t :=
  charsContain_iff pat.toList s.toList

theorem collectProxies_eq_none (l : List ProxyEntry) :
    collectProxies l = none ↔
      List.any l (fun e => Option.isNone (entryToProxy e)) = true := by
  induction l with
  | nil => simp [collectProxies]
  | cons e rest ih =>
    simp only [collectProxies, List.any_cons, Bool.or_eq_true]
    cases he : entryToProxy e with
    | none => simp
    | some p => simp [Option.map_eq_none', ih]

theorem backoffWaits_append (s t : List Event) :
    backoffWaits (s ++ t) = backoffWaits s ++ backoffWaits t := by
  induction s with
  | nil => simp [backoffWaits]
  | cons e rest ih =>
    cases e <;> simp [backoffWaits, ih]

theorem countAttempts_append (s t : List Event) :
    countAttempts (s ++ t) = countAttempts s + countAttempts t := by
  induction s with
  | nil => simp [countAttempts]
  | cons e rest ih =>
    cases e <;> simp [countAttempts, ih, Nat.add_right_comm]

theorem extractLoop_trace_prefix (env : Env) (ps : List Proxy) (rc : Nat) :
    ∀ (attempts : List Nat) (trace : List Event),
      ∃ added, (extractLoop env ps rc attempts trace).2 = trace ++ added := by
  intro attempts
  induction attempts with
  | nil =>
    intro trace
    exact ⟨[], by simp [extractLoop]⟩
  | cons a rest ih =>
    intro trace
    simp only [extractLoop]
    split
    · simp only [List.append_assoc]
      exact ⟨_, rfl⟩
    · split
      · split
        · obtain ⟨ad, had⟩ := ih _
          rw [had]
          simp only [List.append_assoc]
          exact ⟨_, rfl⟩
        · simp only [List.append_assoc]
          exact ⟨_, rfl⟩
      · split
        · simp only [List.append_assoc]
          exact ⟨_, rfl⟩
        · split
          · obtain ⟨ad, had⟩ := ih _
            rw [had]
            simp only [List.append_assoc]
            exact ⟨_, rfl⟩
          · simp only [List.append_assoc]
            exact ⟨_, rfl⟩

theorem extractLoop_shape (env : Env) (ps : List Proxy) (rc : Nat) :
    ∀ (attempts : List Nat) (trace : List Event),
      ResultShape env ps ((extractLoop env ps rc attempts trace).1) := by
  intro attempts
  induction attempts with
  | nil =>
    intro trace
    right
    exact ⟨_, "MAX_RETRIES_EXCEEDED", by simp, rfl⟩
  | cons a rest ih =>
    intro trace
    simp only [extractLoop]
    split
    · next snips heq =>
      left
      exact ⟨a, snips, heq, rfl⟩
    · next msg heq =>
      split
      · split
        · exact ih _
        · right; exact ⟨_, "IP_BLOCKED", by simp, rfl⟩
      · split
        · right; exact ⟨_, "NO_TRANSCRIPT", by simp, rfl⟩
        · split
          · exact ih _
          · right; exact ⟨_, "UNKNOWN", by simp, rfl⟩

theorem backoffWaits_jitter_ite (c : Prop) [Decidable c] :
    backoffWaits (if c then [Event.jitter] else []) = [] := by
  split <;> rfl

theorem extractLoop_no_max (env : Env) (ps : List Proxy) (rc : Nat) :
    ∀ (n a : Nat) (trace : List Event), a + n = rc → 1 ≤ n →
      (extractLoop env ps rc (List.range' a n) trace).1.errorType ≠
        some ("MAX_RETRIES_EXCEEDED") := by
  intro n
  induction n with
  | zero =>
    intro a trace _ h1
    exact absurd h1 (by omega)
  | succ m ih =>
    intro a trace hsum _
    rw [List.range'_succ]
    simp only [extractLoop]
    split
    · simp [successResult]
    · split
      · split
        · next hlt =>
          exact ih (a + 1) _ (by omega) (by omega)
        · simp only [mkFailure]
          decide
      · split
        · simp only [mkFailure]
          decide
        · split
          · next hlt =>
            exact ih (a + 1) _ (by omega) (by omega)
          · simp only [mkFailure]
            decide

theorem extractLoop_backoff (env : Env) (ps : List Proxy) (rc j : Nat)
    (hfail : ∀ k, k ≤ j → ∃ m, env.fetch k = FetchOutcome.err m ∧ rateLimitCond m = true)
    (hj : j < rc - 1) :
    ∀ (n a : Nat) (trace : List Event), a + n = rc → a ≤ j + 1 →
      ∃ rest, backoffWaits (extractLoop env ps rc (List.range' a n) trace).2 =
        backoffWaits trace ++
          List.map (fun k => 2 ^ k * 30) (List.range' a (j + 1 - a)) ++ rest := by
  intro n
  induction n with
  | zero =>
    intro a trace hsum ha
    omega
  | succ m ih =>
    intro a trace hsum ha
    rcases Nat.lt_or_ge a (j + 1) with haj | haj
    · -- a ≤ j: this attempt fails rate-limited and retries with backoff 2 ^ a * 30
      obtain ⟨msg, hm, hrl⟩ := hfail a (by omega)
      rw [List.range'_succ]
      simp only [extractLoop, hm, hrl, if_pos (show a < rc - 1 by omega), if_true]
      obtain ⟨rest, hrest⟩ := ih (a + 1) _ (by omega) (by omega)
      refine ⟨rest, ?_⟩
      rw [hrest]
      have hsplit : List.range' a (j + 1 - a) =
          a :: List.range' (a + 1) (j + 1 - (a + 1)) := by
        have : j + 1 - a = (j + 1 - (a + 1)) + 1 := by omega
        rw [this, List.range'_succ]
      rw [hsplit]
      simp [backoffWaits_append, backoffWaits, backoffWaits_jitter_ite, List.append_assoc]
    · -- a = j + 1: the schedule so far is complete; whatever follows is rest
      have haeq : a = j + 1 := by omega
      obtain ⟨added, hadded⟩ :=
        extractLoop_trace_prefix env ps rc (List.range' a (m + 1)) trace
      refine ⟨backoffWaits added, ?_⟩
      rw [hadded, backoffWaits_append, haeq]
      simp

theorem extractLoop_cons_trace (env : Env) (ps : List Proxy) (rc a : Nat)
    (rest : List Nat) (trace : List Event) :
    ∃ added, (extractLoop env ps rc (a :: rest) trace).2 =
      trace ++ (if 0 < a then [Event.jitter] else []) ++
        [Event.fetchAttempt a (chooseProxy (env.pick a) ps)] ++ added := by
  simp only [extractLoop]
  split
  · simp only [List.append_assoc]
    exact ⟨[], by simp⟩
  · split
    · split
      · obtain ⟨ad, had⟩ := extractLoop_trace_prefix env ps rc rest _
        rw [had]
        simp only [List.append_assoc]
        exact ⟨_, rfl⟩
      · simp only [List.append_assoc]
        exact ⟨[], by simp⟩
    · split
      · simp only [List.append_assoc]
        exact ⟨[], by simp⟩
      · split
        · obtain ⟨ad, had⟩ := extractLoop_trace_prefix env ps rc rest _
          rw [had]
          simp only [List.append_assoc]
          exact ⟨_, rfl⟩
        · simp only [List.append_assoc]
          exact ⟨[], by simp⟩

theorem chooseProxy_nil (pickIndex : Nat) : chooseProxy pickIndex [] = none := rfl

theorem extractLoop_proxy_none (env : Env) (rc : Nat) :
    ∀ (attempts : List Nat) (trace : List Event),
      (∀ a p, Event.fetchAttempt a p ∈ trace → p = none) →
      ∀ a p, Event.fetchAttempt a p ∈ (extractLoop env [] rc attempts trace).2 → p = none := by
  intro attempts
  induction attempts with
  | nil =>
    intro trace h a p hm
    simp only [extractLoop] at hm
    exact h a p hm
  | cons b rest ih =>
    intro trace h a p
    have h2 : ∀ a p, Event.fetchAttempt a p ∈
        trace ++ (if 0 < b then [Event.jitter] else []) ++
          [Event.fetchAttempt b (chooseProxy (env.pick b) [])] → p = none := by
      intro a p hm
      rcases List.mem_append.1 hm with hm | hm
      · rcases List.mem_append.1 hm with hm | hm
        · exact h a p hm
        · split at hm <;> simp at hm
      · simp only [List.mem_singleton, Event.fetchAttempt.injEq] at hm
        rw [hm.2, chooseProxy_nil]
    simp only [extractLoop]
    split
    · intro hm
      exact h2 a p hm
    · split
      · split
        · intro hm
          refine ih _ ?_ a p hm
          intro a p hm2
          rcases List.mem_append.1 hm2 with hm2 | hm2
          · exact h2 a p hm2
          · simp at hm2
        · intro hm
          exact h2 a p hm
      · split
        · intro hm
          exact h2 a p hm
        · split
          · intro hm
            refine ih _ ?_ a p hm
            intro a p hm2
            rcases List.mem_append.1 hm2 with hm2 | hm2
            · exact h2 a p hm2
            · simp at hm2
          · intro hm
            exact h2 a p hm

/-! Claim theorems. -/

/-- C1: every successful extract_transcript result came from an attempt whose
fetch succeeded; it carries segments, fullText, segmentCount, attempt and
proxy_used; segments are the fetched snippets converted in order,
segmentCount equals the length of segments, and fullText equals the segment
texts joined by single spaces in order. -/
theorem c1_success_result_fields (env : Env) (rc : Nat)
    (h : (extract_transcript env rc).1.success = true) :
    ∃ a snips,
      env.fetch a = FetchOutcome.ok snips ∧
      (extract_transcript env rc).1.segments = some (List.map segmentOfSnippet snips) ∧
      (extract_transcript env rc).1.fullText =
        some (String.intercalate (" ") (List.map Snippet.text snips)) ∧
      (extract_transcript env rc).1.segmentCount =
        some (List.length (List.map segmentOfSnippet snips)) ∧
      (extract_transcript env rc).1.attempt = some (a + 1) ∧
      (extract_transcript env rc).1.proxy_used.isSome = true := by
  have hs := extractLoop_shape env ((fetch_webshare_proxies env.apiKey env.http).2) rc
    (List.range rc) []
  rcases hs with ⟨a, snips, hf, hr⟩ | ⟨msg, et, het, hr⟩
  · have hr2 : (extract_transcript env rc).1 =
        successResult a (chooseProxy (env.pick a) ((fetch_webshare_proxies env.apiKey env.http).2))
          snips := hr
    exact ⟨a, snips, hf, by rw [hr2]; simp [successResult],
      by rw [hr2]; simp [successResult, joinTexts],
      by rw [hr2]; simp [successResult],
      by rw [hr2]; simp [successResult],
      by rw [hr2]; simp [successResult]⟩
  · have hr2 : (extract_transcript env rc).1 = mkFailure msg et := hr
    rw [hr2] at h
    simp [mkFailure] at h

/-- C1 witness: a concrete run that succeeds on the first attempt. -/
theorem c1_witness :
    (extract_transcript envOk 3).1.success = true ∧
    (∃ a snips,
      envOk.fetch a = FetchOutcome.ok snips ∧
      (extract_transcript envOk 3).1.segments = some (List.map segmentOfSnippet snips) ∧
      (extract_transcript envOk 3).1.fullText =
        some (String.intercalate (" ") (List.map Snippet.text snips)) ∧
      (extract_transcript envOk 3).1.segmentCount =
        some (List.length (List.map segmentOfSnippet snips)) ∧
      (extract_transcript envOk 3).1.attempt = some (a + 1) ∧
      (extract_transcript envOk 3).1.proxy_used.isSome = true) :=
  ⟨by decide, c1_success_result_fields envOk 3 (by decide)⟩

/-- C2 counterexample: the raised message IP transcript failure contains the
substring transcript, yet the run makes two attempts and returns errorType
IP_BLOCKED, not NO_TRANSCRIPT, because the rate-limit test has precedence. -/
theorem c2_counterexample :
    occursIn ("transcript") ("IP transcript failure") = true ∧
    countAttempts (extract_transcript envIpTrans 2).2 = 2 ∧
    (extract_transcript envIpTrans 2).1.errorType = some ("IP_BLOCKED") ∧
    (extract_transcript envIpTrans 2).1.errorType ≠ some ("NO_TRANSCRIPT") :=
  ⟨by decide, by decide, by decide, by decide⟩

/-- C2 (amended): for every error message that contains transcript in its
lowercased form and does not satisfy the rate-limit test (IP case-sensitive,
blocked case-insensitive, 429), a run whose first fetch raises it makes
exactly one attempt and returns the NO_TRANSCRIPT failure, even if attempts
remain. -/
theorem c2_no_transcript_terminal (env : Env) (rc : Nat) (m : String)
    (h1 : 1 ≤ rc)
    (h2 : env.fetch 0 = FetchOutcome.err m)
    (h3 : occursIn ("transcript") (strLower m) = true)
    (h4 : rateLimitCond m = false) :
    (extract_transcript env rc).1 =
      mkFailure ("No transcript available: " ++ m) ("NO_TRANSCRIPT") ∧
    countAttempts (extract_transcript env rc).2 = 1 := by
  obtain ⟨n, rfl⟩ : ∃ n, rc = n + 1 := ⟨rc - 1, by omega⟩
  have h5 : noTransCond m = true := by
    unfold noTransCond
    rw [h3]
    rfl
  unfold extract_transcript
  rw [List.range_eq_range', List.range'_succ]
  simp [extractLoop, h2, h4, h5, countAttempts]

/-- C2 witness: a concrete plain no-transcript message with three attempts
allowed. -/
theorem c2_witness :
    (1 ≤ 3 ∧ envNoTrans.fetch 0 = FetchOutcome.err ("no transcript found") ∧
      occursIn ("transcript") (strLower ("no transcript found")) = true ∧
      rateLimitCond ("no transcript found") = false) ∧
    ((extract_transcript envNoTrans 3).1 =
      mkFailure ("No transcript available: " ++ "no transcript found") ("NO_TRANSCRIPT") ∧
     countAttempts (extract_transcript envNoTrans 3).2 = 1) :=
  ⟨⟨by decide, rfl, by decide, by decide⟩,
   c2_no_transcript_terminal envNoTrans 3 ("no transcript found") (by decide) rfl
     (by decide) (by decide)⟩

/-- C3 counterexample: the message client ip rejected contains ip
case-insensitively, yet it is classified UNKNOWN, not rate-limit/block: the
source matches IP case-sensitively. -/
theorem c3_counterexample :
    occursIn ("ip") (strLower ("client ip rejected")) = true ∧
    (extract_transcript envLowerIp 1).1.errorType = some ("UNKNOWN") ∧
    (extract_transcript envLowerIp 1).1.errorType ≠ some ("IP_BLOCKED") :=
  ⟨by decide, by decide, by decide⟩

/-- C3 (amended): every raised error is classified by substring match in this
precedence order: IP matched case-sensitively, blocked case-insensitively, or
429 give the rate-limit class; else transcript or available, both
case-insensitively, give the no-transcript class; else unknown. The errorType
of a single-attempt run exposes the class. -/
theorem c3_classification (env : Env) (m : String)
    (h : env.fetch 0 = FetchOutcome.err m) :
    (extract_transcript env 1).1.errorType =
      some (if occursIn ("IP") m || occursIn ("blocked") (strLower m) || occursIn ("429") m
        then "IP_BLOCKED"
        else if occursIn ("transcript") (strLower m) || occursIn ("available") (strLower m)
        then "NO_TRANSCRIPT"
        else "UNKNOWN") := by
  unfold extract_transcript
  rw [List.range_eq_range', List.range'_succ]
  simp only [extractLoop, h, rateLimitCond, noTransCond]
  by_cases h1 :
      (occursIn ("IP") m || occursIn ("blocked") (strLower m) || occursIn ("429") m) = true
  · simp [h1, mkFailure]
  · rw [Bool.not_eq_true] at h1
    by_cases h2 :
        (occursIn ("transcript") (strLower m) || occursIn ("available") (strLower m)) = true
    · simp [h1, h2, mkFailure]
    · rw [Bool.not_eq_true] at h2
      simp [h1, h2, mkFailure]

/-- C3 witness: an unclassifiable message lands in UNKNOWN. -/
theorem c3_witness :
    envBoom.fetch 0 = FetchOutcome.err ("boom") ∧
    (extract_transcript envBoom 1).1.errorType = some ("UNKNOWN") :=
  ⟨rfl, (c3_classification envBoom ("boom") rfl).trans (by decide)⟩

/-- C4: when the first j + 1 attempts all fail with rate-limit classified
errors and attempts remain, the backoff waits before their retries are
30 * 2 ^ k seconds for k = 0 .. j, in order, at the front of the wait list. -/
theorem c4_backoff_schedule (env : Env) (rc j : Nat)
    (hfail : ∀ k, k ≤ j → ∃ m, env.fetch k = FetchOutcome.err m ∧ rateLimitCond m = true)
    (hj : j < rc - 1) :
    ∃ rest, backoffWaits (extract_transcript env rc).2 =
      List.map (fun k => 30 * 2 ^ k) (List.range (j + 1)) ++ rest := by
  obtain ⟨rest, hrest⟩ :=
    extractLoop_backoff env ((fetch_webshare_proxies env.apiKey env.http).2) rc j hfail hj
      rc 0 [] (by omega) (by omega)
  refine ⟨rest, ?_⟩
  unfold extract_transcript
  rw [List.range_eq_range']
  rw [hrest]
  have hfun : (fun k : Nat => 2 ^ k * 30) = (fun k : Nat => 30 * 2 ^ k) :=
    funext fun k => Nat.mul_comm _ _
  rw [hfun]
  simp [backoffWaits, List.range_eq_range']

/-- C4 witness: two consecutive 429 failures among three attempts give
backoff waits 30 then 60. -/
theorem c4_witness :
    (∀ k, k ≤ 1 → ∃ m, envRate.fetch k = FetchOutcome.err m ∧ rateLimitCond m = true) ∧
    (∃ rest, backoffWaits (extract_transcript envRate 3).2 =
      List.map (fun k => 30 * 2 ^ k) (List.range 2) ++ rest) := by
  have hfail : ∀ k, k ≤ 1 →
      ∃ m, envRate.fetch k = FetchOutcome.err m ∧ rateLimitCond m = true :=
    fun k _ => ⟨"429 Too Many Requests", rfl, by decide⟩
  exact ⟨hfail, c4_backoff_schedule envRate 3 1 hfail (by decide)⟩

/-- C5: every failure result carries error and errorType, the errorType is one
of IP_BLOCKED, NO_TRANSCRIPT, UNKNOWN, MAX_RETRIES_EXCEEDED, and the segment
fields are empty: segments = [], fullText empty, segmentCount 0. -/
theorem c5_failure_result_fields (env : Env) (rc : Nat)
    (h : (extract_transcript env rc).1.success = false) :
    (extract_transcript env rc).1.error.isSome = true ∧
    ((extract_transcript env rc).1.errorType = some ("IP_BLOCKED") ∨
     (extract_transcript env rc).1.errorType = some ("NO_TRANSCRIPT") ∨
     (extract_transcript env rc).1.errorType = some ("UNKNOWN") ∨
     (extract_transcript env rc).1.errorType = some ("MAX_RETRIES_EXCEEDED")) ∧
    (extract_transcript env rc).1.segments = some [] ∧
    (extract_transcript env rc).1.fullText = some ("") ∧
    (extract_transcript env rc).1.segmentCount = some 0 := by
  have hs := extractLoop_shape env ((fetch_webshare_proxies env.apiKey env.http).2) rc
    (List.range rc) []
  rcases hs with ⟨a, snips, hf, hr⟩ | ⟨msg, et, het, hr⟩
  · have hr2 : (extract_transcript env rc).1 =
        successResult a (chooseProxy (env.pick a) ((fetch_webshare_proxies env.apiKey env.http).2))
          snips := hr
    rw [hr2] at h
    simp [successResult] at h
  · have hr2 : (extract_transcript env rc).1 = mkFailure msg et := hr
    rw [hr2]
    refine ⟨by simp [mkFailure], ?_, by simp [mkFailure], by simp [mkFailure],
      by simp [mkFailure]⟩
    rcases het with rfl | rfl | rfl | rfl
    · exact Or.inl rfl
    · exact Or.inr (Or.inl rfl)
    · exact Or.inr (Or.inr (Or.inl rfl))
    · exact Or.inr (Or.inr (Or.inr rfl))

/-- C5 witness: a concrete failing run. -/
theorem c5_witness :
    (extract_transcript envBoom 1).1.success = false ∧
    ((extract_transcript envBoom 1).1.error.isSome = true ∧
     ((extract_transcript envBoom 1).1.errorType = some ("IP_BLOCKED") ∨
      (extract_transcript envBoom 1).1.errorType = some ("NO_TRANSCRIPT") ∨
      (extract_transcript envBoom 1).1.errorType = some ("UNKNOWN") ∨
      (extract_transcript envBoom 1).1.errorType = some ("MAX_RETRIES_EXCEEDED")) ∧
     (extract_transcript envBoom 1).1.segments = some [] ∧
     (extract_transcript envBoom 1).1.fullText = some ("") ∧
     (extract_transcript envBoom 1).1.segmentCount = some 0) :=
  ⟨by decide, c5_failure_result_fields envBoom 1 (by decide)⟩

/-- C6 counterexample: a failure result populates the success-path fields
segments, fullText and segmentCount (as keys with empty values) at the same
time as the failure-path fields error and errorType, so the two field groups
of the claim are not mutually exclusive. -/
theorem c6_counterexample :
    (extract_transcript envBoom 1).1.success = false ∧
    (extract_transcript envBoom 1).1.error.isSome = true ∧
    (extract_transcript envBoom 1).1.errorType.isSome = true ∧
    (extract_transcript envBoom 1).1.segments.isSome = true ∧
    (extract_transcript envBoom 1).1.fullText.isSome = true ∧
    (extract_transcript envBoom 1).1.segmentCount.isSome = true :=
  ⟨by decide, by decide, by decide, by decide, by decide, by decide⟩

/-- C6 (amended): success determines the result shape, but only attempt and
proxy_used versus error and errorType are mutually exclusive; segments,
fullText and segmentCount are present in every result (empty on failure). -/
theorem c6_field_presence (env : Env) (rc : Nat) :
    ((extract_transcript env rc).1.success = true →
      (extract_transcript env rc).1.attempt.isSome = true ∧
      (extract_transcript env rc).1.proxy_used.isSome = true ∧
      (extract_transcript env rc).1.error = none ∧
      (extract_transcript env rc).1.errorType = none) ∧
    ((extract_transcript env rc).1.success = false →
      (extract_transcript env rc).1.error.isSome = true ∧
      (extract_transcript env rc).1.errorType.isSome = true ∧
      (extract_transcript env rc).1.attempt = none ∧
      (extract_transcript env rc).1.proxy_used = none) ∧
    (extract_transcript env rc).1.segments.isSome = true ∧
    (extract_transcript env rc).1.fullText.isSome = true ∧
    (extract_transcript env rc).1.segmentCount.isSome = true := by
  have hs := extractLoop_shape env ((fetch_webshare_proxies env.apiKey env.http).2) rc
    (List.range rc) []
  rcases hs with ⟨a, snips, hf, hr⟩ | ⟨msg, et, het, hr⟩
  · have hr2 : (extract_transcript env rc).1 =
        successResult a (chooseProxy (env.pick a) ((fetch_webshare_proxies env.apiKey env.http).2))
          snips := hr
    rw [hr2]
    refine ⟨fun _ => by simp [successResult], fun hfalse => ?_, by simp [successResult],
      by simp [successResult], by simp [successResult]⟩
    simp [successResult] at hfalse
  · have hr2 : (extract_transcript env rc).1 = mkFailure msg et := hr
    rw [hr2]
    refine ⟨fun htrue => ?_, fun _ => by simp [mkFailure], by simp [mkFailure],
      by simp [mkFailure], by simp [mkFailure]⟩
    simp [mkFailure] at htrue

/-- C6 witness: the success side of the amended claim at a concrete run. -/
theorem c6_witness :
    (extract_transcript envOk 3).1.success = true ∧
    ((extract_transcript envOk 3).1.attempt.isSome = true ∧
     (extract_transcript envOk 3).1.proxy_used.isSome = true ∧
     (extract_transcript envOk 3).1.error = none ∧
     (extract_transcript envOk 3).1.errorType = none) :=
  ⟨by decide, (c6_field_presence envOk 3).1 (by decide)⟩

/-- C7: with an empty proxy list and at least one attempt allowed, the first
recorded event is a proxy-less transcript fetch (no early failure), and every
transcript fetch of the run is performed without a proxy. -/
theorem c7_proxyless_attempts (env : Env) (rc : Nat)
    (h1 : (fetch_webshare_proxies env.apiKey env.http).2 = [])
    (h2 : 1 ≤ rc) :
    List.head? (extract_transcript env rc).2 = some (Event.fetchAttempt 0 none) ∧
    ∀ a p, Event.fetchAttempt a p ∈ (extract_transcript env rc).2 → p = none := by
  constructor
  · obtain ⟨n, rfl⟩ : ∃ n, rc = n + 1 := ⟨rc - 1, by omega⟩
    unfold extract_transcript
    rw [h1, List.range_eq_range', List.range'_succ]
    obtain ⟨added, hadded⟩ := extractLoop_cons_trace env [] (n + 1) 0 (List.range' 1 n) []
    rw [hadded]
    simp [chooseProxy_nil]
  · intro a p hm
    unfold extract_transcript at hm
    rw [h1] at hm
    exact extractLoop_proxy_none env rc (List.range rc) [] (by simp) a p hm

/-- C7 witness: a run with no API key, hence an empty proxy list. -/
theorem c7_witness :
    (fetch_webshare_proxies envBoom.apiKey envBoom.http).2 = [] ∧
    (List.head? (extract_transcript envBoom 1).2 = some (Event.fetchAttempt 0 none) ∧
     ∀ a p, Event.fetchAttempt a p ∈ (extract_transcript envBoom 1).2 → p = none) :=
  ⟨rfl, c7_proxyless_attempts envBoom 1 rfl (by decide)⟩

/-- C8: on every failure outcome of the proxy-list fetch (missing key, network
exception, non-200 status, malformed payload or entry), fetch_webshare_proxies
returns the empty collection and writes at least one diagnostic line; the
function is total, so no exception reaches the caller. -/
theorem c8_proxy_fetch_degrades (key : String) (http : HttpOutcome)
    (h : isFailureOutcome key http = true) :
    (fetch_webshare_proxies key http).2 = [] ∧
    (fetch_webshare_proxies key http).1 ≠ [] := by
  by_cases hk : key = ""
  · simp [fetch_webshare_proxies, hk]
  · cases http with
    | exc m => simp [fetch_webshare_proxies, hk]
    | resp status body =>
      by_cases hs : status = 200
      · subst hs
        cases body with
        | parseError m => simp [fetch_webshare_proxies, hk]
        | parsed results =>
          have h2 : List.any (Option.getD results [])
              (fun e => Option.isNone (entryToProxy e)) = true := by
            simpa [isFailureOutcome, hk] using h
          have h3 : collectProxies (Option.getD results []) = none :=
            (collectProxies_eq_none _).2 h2
          simp [fetch_webshare_proxies, hk, h3]
      · simp [fetch_webshare_proxies, hk, hs]

/-- C8 witness: the missing-key outcome. -/
theorem c8_witness :
    isFailureOutcome ("") httpDown = true ∧
    ((fetch_webshare_proxies ("") httpDown).2 = [] ∧
     (fetch_webshare_proxies ("") httpDown).1 ≠ []) :=
  ⟨by decide, c8_proxy_fetch_degrades ("") httpDown (by decide)⟩

/-- C9: with at least one attempt allowed, the defensive fallback after the
loop is unreachable: no run ever returns errorType MAX_RETRIES_EXCEEDED,
because every loop iteration returns or continues and the last one returns. -/
theorem c9_max_retries_unreachable (env : Env) (rc : Nat) (h : 1 ≤ rc) :
    (extract_transcript env rc).1.errorType ≠ some ("MAX_RETRIES_EXCEEDED") := by
  unfold extract_transcript
  rw [List.range_eq_range']
  exact extractLoop_no_max env _ rc rc 0 [] (by omega) h

/-- C9 witness: a concrete exhausted run still avoids the fallback. -/
theorem c9_witness :
    1 ≤ 1 ∧ (extract_transcript envBoom 1).1.errorType ≠ some ("MAX_RETRIES_EXCEEDED") :=
  ⟨by decide, c9_max_retries_unreachable envBoom 1 (by decide)⟩

/-- C10: failure results omit the attempt and proxy_used keys, and success
results omit the error and errorType keys. -/
theorem c10_key_absence (env : Env) (rc : Nat) :
    ((extract_transcript env rc).1.success = false →
      (extract_transcript env rc).1.attempt = none ∧
      (extract_transcript env rc).1.proxy_used = none) ∧
    ((extract_transcript env rc).1.success = true →
      (extract_transcript env rc).1.error = none ∧
      (extract_transcript env rc).1.errorType = none) := by
  have hs := extractLoop_shape env ((fetch_webshare_proxies env.apiKey env.http).2) rc
    (List.range rc) []
  rcases hs with ⟨a, snips, hf, hr⟩ | ⟨msg, et, het, hr⟩
  · have hr2 : (extract_transcript env rc).1 =
        successResult a (chooseProxy (env.pick a) ((fetch_webshare_proxies env.apiKey env.http).2))
          snips := hr
    rw [hr2]
    constructor
    · intro hfalse
      simp [successResult] at hfalse
    · intro _
      simp [successResult]
  · have hr2 : (extract_transcript env rc).1 = mkFailure msg et := hr
    rw [hr2]
    constructor
    · intro _
      simp [mkFailure]
    · intro htrue
      simp [mkFailure] at htrue

/-- C10 witness: the failure side at a concrete run. -/
theorem c10_witness :
    (extract_transcript envBoom 1).1.success = false ∧
    ((extract_transcript envBoom 1).1.attempt = none ∧
     (extract_transcript envBoom 1).1.proxy_used = none) :=
  ⟨by decide, (c10_key_absence envBoom 1).1 (by decide)⟩
